import Mathlib

/-!
Shallow embedding of the rebalance application (src/app.py) over exact
rational arithmetic, together with theorems checking the specification's
claims about the allocation / tolerance / profit / sentiment logic.

The source is a single script: the core computations are module-level
assignments over three hardcoded asset classes (オルカン = Equity,
ゴールド = Gold, キャッシュ = Cash), plus the helper `check_tolerance`
and the VIX sentiment display.  Python numbers are modelled as ℚ; a
Python `ZeroDivisionError` is modelled by returning `none`.
-/

namespace Rebalance

/-- Status labels produced by the app.  The source uses Japanese strings
with emoji; we model them as a tagged variant:
`hold` = "⚪️ 維持 (許容範囲内)", `buyDeviation` = "🟢 買い (乖離大)",
`sellDeviation` = "🔴 売り (乖離大)", `buyProportional` = "🔵 積立 (比率配分)". -/
inductive Status where
  | hold
  | buyDeviation
  | sellDeviation
  | buyProportional
deriving DecidableEq, Repr

/-- Sidebar inputs of the app (src/app.py lines 42-75).  `principal_cash`
is not an input: line 69 defines it as `current_cash`. -/
structure Portfolio where
  target_orkan : ℚ
  target_gold : ℚ
  target_cash : ℚ
  current_orkan : ℚ
  current_gold : ℚ
  current_cash : ℚ
  principal_orkan : ℚ
  principal_gold : ℚ
  additional_fund : ℚ
deriving DecidableEq, Repr

/-- Line 69: `principal_cash = current_cash`. -/
def Portfolio.principal_cash (p : Portfolio) : ℚ := p.current_cash

/-- Line 80: `projected_total_assets = current_orkan + current_gold +
current_cash + additional_fund`. -/
def projected_total_assets (p : Portfolio) : ℚ :=
  p.current_orkan + p.current_gold + p.current_cash + p.additional_fund

/-- Lines 83-85: `ideal_x = projected_total_assets * (target_x / 100)`. -/
def ideal_amount (total target : ℚ) : ℚ := total * (target / 100)

/-- Lines 88-90: `raw_gap_x = ideal_x - current_x`. -/
def raw_gap (total target current : ℚ) : ℚ := ideal_amount total target - current

/-- Line 96 of `check_tolerance`:
`threshold = 5.0 if target_pct <= 20 else 10.0`. -/
def threshold_pct (target_pct : ℚ) : ℚ := if target_pct ≤ 20 then 5 else 10

/-- Lines 94-108: `check_tolerance(gap_val, target_pct, total_assets)`.
Returns the pair `(adjusted_gap, status_text)`.  Line 95 divides by
`total_assets` with no guard, so the Python function raises
`ZeroDivisionError` when `total_assets == 0`; that fault is modelled as
`none`. -/
def check_tolerance (gap_val target_pct total_assets : ℚ) :
    Option (ℚ × Status) :=
  if total_assets = 0 then none
  else
    let deviation_pct := (|gap_val| / total_assets) * 100
    let threshold := threshold_pct target_pct
    let is_within_tolerance := deviation_pct ≤ threshold
    let adjusted_gap := if is_within_tolerance then 0 else gap_val
    let status : Status :=
      if is_within_tolerance then .hold
      else if gap_val > 0 then .buyDeviation
      else .sellDeviation
    some (adjusted_gap, status)

/-- Per-asset outcome of the allocation logic. -/
structure AllocResult where
  alloc_orkan : ℚ
  alloc_gold : ℚ
  alloc_cash : ℚ
  status_orkan : Status
  status_gold : Status
  status_cash : Status
deriving DecidableEq, Repr

/-- Lines 114-131: the allocation logic.  Inputs are the adjusted gaps and
statuses produced by `check_tolerance` for the three assets, the target
ratios and `additional_fund`.  `pos_gap_x = max(0, adj_gap_x)`; if
`total_positive_gap > 0` each asset gets
`additional_fund * (pos_gap_x / total_positive_gap)`, otherwise each gets
`additional_fund * (target_x / 100)` and any asset with a positive amount
is relabelled 積立 (`buyProportional`). -/
def allocate (fund : ℚ) (adj_orkan adj_gold adj_cash : ℚ)
    (t_orkan t_gold t_cash : ℚ) (s_orkan s_gold s_cash : Status) :
    AllocResult :=
  let pos_orkan := max 0 adj_orkan
  let pos_gold := max 0 adj_gold
  let pos_cash := max 0 adj_cash
  let total_positive_gap := pos_orkan + pos_gold + pos_cash
  if total_positive_gap > 0 then
    { alloc_orkan := fund * (pos_orkan / total_positive_gap)
      alloc_gold := fund * (pos_gold / total_positive_gap)
      alloc_cash := fund * (pos_cash / total_positive_gap)
      status_orkan := s_orkan
      status_gold := s_gold
      status_cash := s_cash }
  else
    let a_orkan := fund * (t_orkan / 100)
    let a_gold := fund * (t_gold / 100)
    let a_cash := fund * (t_cash / 100)
    { alloc_orkan := a_orkan
      alloc_gold := a_gold
      alloc_cash := a_cash
      status_orkan := if a_orkan > 0 then .buyProportional else s_orkan
      status_gold := if a_gold > 0 then .buyProportional else s_gold
      status_cash := if a_cash > 0 then .buyProportional else s_cash }

/-- Lines 80-131 composed: gaps, tolerance classification (lines 110-112)
and allocation for a full portfolio.  `none` models the
`ZeroDivisionError` raised by `check_tolerance` when
`projected_total_assets == 0`. -/
def rebalance (p : Portfolio) : Option AllocResult :=
  match
    check_tolerance (raw_gap (projected_total_assets p) p.target_orkan p.current_orkan)
      p.target_orkan (projected_total_assets p),
    check_tolerance (raw_gap (projected_total_assets p) p.target_gold p.current_gold)
      p.target_gold (projected_total_assets p),
    check_tolerance (raw_gap (projected_total_assets p) p.target_cash p.current_cash)
      p.target_cash (projected_total_assets p) with
  | some (adj_orkan, s_orkan), some (adj_gold, s_gold), some (adj_cash, s_cash) =>
    some (allocate p.additional_fund adj_orkan adj_gold adj_cash
      p.target_orkan p.target_gold p.target_cash s_orkan s_gold s_cash)
  | _, _, _ => none

/-- Line 221: `if additional_fund <= 0: st.warning(...)` — the UI shows a
warning (and skips the instruction table) exactly when the additional
fund is non-positive. -/
def shows_fund_warning (fund : ℚ) : Bool := decide (fund ≤ 0)

/-- Lines 214-216: the After tab shows `future_x / future_total * 100`.
The division has no guard, so Python raises `ZeroDivisionError` when
`future_total == 0`; the fault is modelled as `none`. -/
def future_ratio_pct (value total : ℚ) : Option ℚ :=
  if total = 0 then none else some (value / total * 100)

/-- Lines 141, 145, 151: `profit = current - principal`. -/
def profit (current principal : ℚ) : ℚ := current - principal

/-- Lines 142, 146, 152: `profit_rate = (profit / principal * 100) if
principal > 0 else 0`. -/
def profit_rate (current principal : ℚ) : ℚ :=
  if principal > 0 then profit current principal / principal * 100 else 0

/-- Line 149: `total_current = current_orkan + current_gold + current_cash`. -/
def total_current (p : Portfolio) : ℚ :=
  p.current_orkan + p.current_gold + p.current_cash

/-- Line 150: `total_principal = principal_orkan + principal_gold +
principal_cash` (with `principal_cash = current_cash` from line 69). -/
def total_principal (p : Portfolio) : ℚ :=
  p.principal_orkan + p.principal_gold + p.principal_cash

/-- Line 151: `total_profit = total_current - total_principal`. -/
def total_profit (p : Portfolio) : ℚ := total_current p - total_principal p

/-- Line 152: `total_profit_rate = (total_profit / total_principal * 100)
if total_principal > 0 else 0`. -/
def total_profit_rate (p : Portfolio) : ℚ :=
  if total_principal p > 0 then total_profit p / total_principal p * 100 else 0

/-- Advisory tiers of the VIX display (lines 308-328).  `unavailable`
models the `else` branch of `if current_vix:` (line 328, "取得失敗"). -/
inductive Sentiment where
  | panic
  | caution
  | calm
  | neutral
  | unavailable
deriving DecidableEq, Repr

/-- Lines 308-325: the sentiment shown for the fetched VIX value.  The
guard `if current_vix:` (line 308) tests Python truthiness, so both
`None` (absent) and the float `0.0` take the `else` branch; inside,
`> 30` → panic (line 318), `elif > 20` → caution (line 320),
`elif < 15` → calm (line 322), `else` → neutral (line 324). -/
def classify_sentiment (vix : Option ℚ) : Sentiment :=
  match vix with
  | none => .unavailable
  | some v =>
    if v = 0 then .unavailable
    else if v > 30 then .panic
    else if v > 20 then .caution
    else if v < 15 then .calm
    else .neutral

/-- Content of the VIX field of the CSV report. -/
inductive VixCell where
  | shown (v : ℚ)
  | fetchFailed
deriving DecidableEq, Repr

/-- Line 266 of `create_report_csv`:
`vix_str = f"{current_vix:.2f}" if current_vix else "取得失敗"`.
Python truthiness again: both `None` and `0.0` yield "取得失敗"
(`fetchFailed`). -/
def vix_csv_cell (vix : Option ℚ) : VixCell :=
  match vix with
  | none => .fetchFailed
  | some v => if v = 0 then .fetchFailed else .shown v

/-- Outputs of one run of the script, as a function of the sidebar
portfolio and the fetched VIX value (line 155).  The allocation part
(lines 80-131) never reads `current_vix`; the sentiment and CSV cell
never read the portfolio. -/
structure AppRun where
  allocation : Option AllocResult
  sentiment : Sentiment
  vix_cell : VixCell
deriving Repr

/-- One run of the module-level script: allocation from the portfolio,
sentiment and CSV cell from the fetched VIX value. -/
def app_run (p : Portfolio) (vix : Option ℚ) : AppRun :=
  { allocation := rebalance p
    sentiment := classify_sentiment vix
    vix_cell := vix_csv_cell vix }

/-- Sidebar default inputs of the app (the values shown in src/app.py
lines 42-75), which are also the deficit-priority scenario of the spec:
currents {650, 150, 200}, targets {60, 10, 30}, additional fund 100. -/
def defaultP : Portfolio :=
  { target_orkan := 60, target_gold := 10, target_cash := 30
    current_orkan := 650, current_gold := 150, current_cash := 200
    principal_orkan := 500, principal_gold := 100, additional_fund := 100 }

/-- Allocation the app computes on `defaultP`: the whole 100 goes to
cash, the only asset out of tolerance with a positive gap. -/
def defaultResult : AllocResult :=
  { alloc_orkan := 0, alloc_gold := 0, alloc_cash := 100
    status_orkan := .hold, status_gold := .hold, status_cash := .buyDeviation }

/-- Default sidebar inputs except `additional_fund = -100`. -/
def negativeFundP : Portfolio :=
  { defaultP with additional_fund := -100 }

/-- Allocation the app computes on `negativeFundP`: the neutral branch
distributes the negative fund by target ratio, producing negative
amounts. -/
def negativeFundResult : AllocResult :=
  { alloc_orkan := -60, alloc_gold := -10, alloc_cash := -30
    status_orkan := .sellDeviation, status_gold := .sellDeviation
    status_cash := .hold }

/-- Portfolio in which every asset is within tolerance and equity is over
target (raw gap -8): currents {650, 100, 270}, targets {60, 10, 30},
additional fund 50. -/
def overTargetP : Portfolio :=
  { target_orkan := 60, target_gold := 10, target_cash := 30
    current_orkan := 650, current_gold := 100, current_cash := 270
    principal_orkan := 500, principal_gold := 100, additional_fund := 50 }

/-- Allocation the app computes on `overTargetP`: the neutral branch
gives every asset `fund * target / 100` — the over-target equity asset
included — and relabels all three to 積立 (`buyProportional`). -/
def overTargetResult : AllocResult :=
  { alloc_orkan := 30, alloc_gold := 5, alloc_cash := 15
    status_orkan := .buyProportional, status_gold := .buyProportional
    status_cash := .buyProportional }

/-! Helper lemmas shared by the claim theorems. -/

lemma rebalance_defaultP : rebalance defaultP = some defaultResult := by
  norm_num [rebalance, check_tolerance, allocate, projected_total_assets,
    raw_gap, ideal_amount, threshold_pct, defaultP, defaultResult]

lemma rebalance_negativeFundP :
    rebalance negativeFundP = some negativeFundResult := by
  norm_num [rebalance, check_tolerance, allocate, projected_total_assets,
    raw_gap, ideal_amount, threshold_pct, negativeFundP, defaultP,
    negativeFundResult]

lemma rebalance_overTargetP : rebalance overTargetP = some overTargetResult := by
  norm_num [rebalance, check_tolerance, allocate, projected_total_assets,
    raw_gap, ideal_amount, threshold_pct, overTargetP, overTargetResult]

lemma rebalance_some (p : Portfolio) (r : AllocResult)
    (hr : rebalance p = some r) :
    ∃ aO sO aG sG aC sC,
      r = allocate p.additional_fund aO aG aC
        p.target_orkan p.target_gold p.target_cash sO sG sC := by
  by_cases htot : projected_total_assets p = 0
  · simp [rebalance, check_tolerance, htot] at hr
  · simp only [rebalance, check_tolerance, if_neg htot] at hr
    exact ⟨_, _, _, _, _, _, (Option.some_inj.mp hr).symm⟩

lemma rebalance_isSome (p : Portfolio)
    (htot : projected_total_assets p ≠ 0) : (rebalance p).isSome := by
  simp only [rebalance, check_tolerance, if_neg htot]
  rfl

lemma allocate_nonneg_sum (fund aO aG aC tO tG tC : ℚ) (sO sG sC : Status)
    (hf : 0 ≤ fund) (h1 : 0 ≤ tO) (h2 : 0 ≤ tG) (h3 : 0 ≤ tC)
    (hsum : tO + tG + tC = 100) :
    (0 ≤ (allocate fund aO aG aC tO tG tC sO sG sC).alloc_orkan ∧
     0 ≤ (allocate fund aO aG aC tO tG tC sO sG sC).alloc_gold ∧
     0 ≤ (allocate fund aO aG aC tO tG tC sO sG sC).alloc_cash) ∧
    (allocate fund aO aG aC tO tG tC sO sG sC).alloc_orkan +
      (allocate fund aO aG aC tO tG tC sO sG sC).alloc_gold +
      (allocate fund aO aG aC tO tG tC sO sG sC).alloc_cash = fund := by
  unfold allocate
  by_cases hp : 0 < max 0 aO + max 0 aG + max 0 aC
  · simp only [if_pos hp]
    have hT : max 0 aO + max 0 aG + max 0 aC ≠ 0 := ne_of_gt hp
    refine ⟨⟨?_, ?_, ?_⟩, ?_⟩
    · exact mul_nonneg hf (div_nonneg (le_max_left 0 aO) hp.le)
    · exact mul_nonneg hf (div_nonneg (le_max_left 0 aG) hp.le)
    · exact mul_nonneg hf (div_nonneg (le_max_left 0 aC) hp.le)
    · field_simp
      ring
  · simp only [if_neg hp]
    refine ⟨⟨?_, ?_, ?_⟩, ?_⟩
    · exact mul_nonneg hf (by positivity)
    · exact mul_nonneg hf (by positivity)
    · exact mul_nonneg hf (by positivity)
    · linear_combination fund / 100 * hsum

/-! Claim theorems. -/

/-- C1: for every portfolio with non-negative current values, target
ratios (non-negative, as the data model requires) summing to 100 and a
non-negative additional fund, every allocated amount the script computes
is non-negative and the three amounts sum exactly to the additional
fund. -/
theorem rebalance_alloc_nonneg_sum_eq_fund (p : Portfolio) (r : AllocResult)
    (htO : 0 ≤ p.target_orkan) (htG : 0 ≤ p.target_gold)
    (htC : 0 ≤ p.target_cash)
    (hsum : p.target_orkan + p.target_gold + p.target_cash = 100)
    (hcO : 0 ≤ p.current_orkan) (hcG : 0 ≤ p.current_gold)
    (hcC : 0 ≤ p.current_cash) (hf : 0 ≤ p.additional_fund)
    (hr : rebalance p = some r) :
    (0 ≤ r.alloc_orkan ∧ 0 ≤ r.alloc_gold ∧ 0 ≤ r.alloc_cash) ∧
    r.alloc_orkan + r.alloc_gold + r.alloc_cash = p.additional_fund := by
  obtain ⟨aO, sO, aG, sG, aC, sC, rfl⟩ := rebalance_some p r hr
  exact allocate_nonneg_sum p.additional_fund aO aG aC
    p.target_orkan p.target_gold p.target_cash sO sG sC hf htO htG htC hsum

/-- Witness for C1 on the default sidebar portfolio. -/
theorem rebalance_alloc_nonneg_sum_eq_fund_witness :
    (0 ≤ defaultResult.alloc_orkan ∧ 0 ≤ defaultResult.alloc_gold ∧
      0 ≤ defaultResult.alloc_cash) ∧
    defaultResult.alloc_orkan + defaultResult.alloc_gold +
      defaultResult.alloc_cash = defaultP.additional_fund :=
  rebalance_alloc_nonneg_sum_eq_fund defaultP defaultResult
    (by norm_num [defaultP]) (by norm_num [defaultP]) (by norm_num [defaultP])
    (by norm_num [defaultP]) (by norm_num [defaultP]) (by norm_num [defaultP])
    (by norm_num [defaultP]) (by norm_num [defaultP]) rebalance_defaultP

/-- C2: when the total of positive adjusted gaps is strictly positive,
each asset gets `additional_fund * (positive_gap / total_positive_gap)`,
so an asset whose adjusted gap is zero or negative gets exactly 0; on
the default scenario (currents {650, 150, 200}, targets {60, 10, 30},
fund 100, projected total 1100, raw gaps {10, -40, 130}) only cash is
out of tolerance with a positive gap and the whole 100 goes to cash. -/
theorem allocate_deficit_branch (fund aO aG aC tO tG tC : ℚ)
    (sO sG sC : Status) (hpos : 0 < max 0 aO + max 0 aG + max 0 aC) :
    ((allocate fund aO aG aC tO tG tC sO sG sC).alloc_orkan
        = fund * (max 0 aO / (max 0 aO + max 0 aG + max 0 aC)) ∧
     (allocate fund aO aG aC tO tG tC sO sG sC).alloc_gold
        = fund * (max 0 aG / (max 0 aO + max 0 aG + max 0 aC)) ∧
     (allocate fund aO aG aC tO tG tC sO sG sC).alloc_cash
        = fund * (max 0 aC / (max 0 aO + max 0 aG + max 0 aC))) ∧
    ((aO ≤ 0 → (allocate fund aO aG aC tO tG tC sO sG sC).alloc_orkan = 0) ∧
     (aG ≤ 0 → (allocate fund aO aG aC tO tG tC sO sG sC).alloc_gold = 0) ∧
     (aC ≤ 0 → (allocate fund aO aG aC tO tG tC sO sG sC).alloc_cash = 0)) ∧
    (check_tolerance 10 60 1100 = some (0, Status.hold) ∧
     check_tolerance (-40) 10 1100 = some (0, Status.hold) ∧
     check_tolerance 130 30 1100 = some (130, Status.buyDeviation) ∧
     rebalance defaultP = some defaultResult) := by
  refine ⟨?_, ?_, ?_, ?_, ?_, rebalance_defaultP⟩
  · simp [allocate, if_pos hpos]
  · simp only [allocate, if_pos hpos]
    refine ⟨fun h => ?_, fun h => ?_, fun h => ?_⟩ <;>
      simp [sup_eq_left.mpr h]
  · norm_num [check_tolerance, threshold_pct]
  · norm_num [check_tolerance, threshold_pct]
  · norm_num [check_tolerance, threshold_pct]

/-- Witness for C2 on the adjusted gaps of the default scenario. -/
theorem allocate_deficit_branch_witness :
    (allocate 100 0 0 130 60 10 30 Status.hold Status.hold
        Status.buyDeviation).alloc_cash
      = 100 * (max 0 130 / (max 0 0 + max 0 0 + max 0 130)) :=
  (allocate_deficit_branch 100 0 0 130 60 10 30 Status.hold Status.hold
    Status.buyDeviation (by norm_num)).1.2.2

/-- C3: when no asset has a positive adjusted gap, each asset gets
`additional_fund * (target / 100)`, and the status is relabelled 積立
(`buyProportional`) exactly for the assets whose allocated amount is
positive; any asset with positive target gets a positive amount when the
fund is positive, even an over-target one — on `overTargetP` equity has
raw gap -8 yet receives 30. -/
theorem allocate_neutral_branch (fund aO aG aC tO tG tC : ℚ)
    (sO sG sC : Status) (hz : ¬ 0 < max 0 aO + max 0 aG + max 0 aC) :
    ((allocate fund aO aG aC tO tG tC sO sG sC).alloc_orkan
        = fund * (tO / 100) ∧
     (allocate fund aO aG aC tO tG tC sO sG sC).alloc_gold
        = fund * (tG / 100) ∧
     (allocate fund aO aG aC tO tG tC sO sG sC).alloc_cash
        = fund * (tC / 100)) ∧
    ((allocate fund aO aG aC tO tG tC sO sG sC).status_orkan
        = (if 0 < fund * (tO / 100) then Status.buyProportional else sO) ∧
     (allocate fund aO aG aC tO tG tC sO sG sC).status_gold
        = (if 0 < fund * (tG / 100) then Status.buyProportional else sG) ∧
     (allocate fund aO aG aC tO tG tC sO sG sC).status_cash
        = (if 0 < fund * (tC / 100) then Status.buyProportional else sC)) ∧
    (0 < fund → 0 < tO →
      0 < (allocate fund aO aG aC tO tG tC sO sG sC).alloc_orkan) ∧
    rebalance overTargetP = some overTargetResult := by
  refine ⟨?_, ?_, ?_, rebalance_overTargetP⟩
  · simp [allocate, if_neg hz]
  · simp [allocate, if_neg hz]
  · intro hf ht
    simp only [allocate, if_neg hz]
    positivity

/-- Witness for C3 on the adjusted gaps of `overTargetP` (all zero). -/
theorem allocate_neutral_branch_witness :
    (allocate 50 0 0 0 60 10 30 Status.hold Status.hold
        Status.hold).alloc_orkan = 50 * (60 / 100) :=
  (allocate_neutral_branch 50 0 0 0 60 10 30 Status.hold Status.hold
    Status.hold (by norm_num)).1.1

/-- C4 counterexample: the claim says that when the projected total is 0
the tolerance classification yields `deviation_pct = 0` rather than a
fault, and that the projected ratio is defined as 0 when the future
total is 0.  In the code, line 95 divides `abs(gap_val)` by
`total_assets` and line 214 divides `future_orkan` by `future_total`
with no guard, so both raise `ZeroDivisionError` (modelled as `none`)
instead of yielding a value. -/
theorem check_tolerance_zero_total_faults :
    check_tolerance 0 60 0 = none ∧ future_ratio_pct 0 0 = none := by
  constructor <;> simp [check_tolerance, future_ratio_pct]

/-- C4 amended: `check_tolerance` and the projected-ratio computation
return a value exactly when their denominator is nonzero; at a zero
denominator they fault (Python `ZeroDivisionError`) instead of yielding
0. -/
theorem check_tolerance_total_iff_nonzero (g t total v : ℚ) :
    ((check_tolerance g t total).isSome ↔ total ≠ 0) ∧
    ((future_ratio_pct v total).isSome ↔ total ≠ 0) := by
  constructor <;>
    by_cases h : total = 0 <;>
      simp [check_tolerance, future_ratio_pct, h]

/-- C5 counterexample: the claim says a negative additional fund makes
the engine fail with InvalidInput and produce no allocation result.  On
the default sidebar values with `additional_fund = -100` the script runs
to completion and produces an allocation — the neutral branch hands out
the negative fund by target ratio: {-60, -10, -30}. -/
theorem rebalance_negative_fund_produces_result :
    negativeFundP.additional_fund < 0 ∧
    rebalance negativeFundP = some negativeFundResult ∧
    negativeFundResult.alloc_orkan < 0 := by
  refine ⟨by norm_num [negativeFundP, defaultP], rebalance_negativeFundP,
    by norm_num [negativeFundResult]⟩

/-- C5 amended: for a negative additional fund the engine does not fail
and does not reject the input: whenever the projected total is nonzero
it still produces an allocation result (whose amounts may be negative);
the only reaction to a non-positive fund is the UI warning of line 221,
which also suppresses the instruction table. -/
theorem negative_fund_still_allocates (p : Portfolio)
    (hneg : p.additional_fund < 0) :
    shows_fund_warning p.additional_fund = true ∧
    (projected_total_assets p ≠ 0 → (rebalance p).isSome) := by
  constructor
  · simp [shows_fund_warning, hneg.le]
  · exact rebalance_isSome p

/-- Witness for the amended C5 on the negative-fund portfolio. -/
theorem negative_fund_still_allocates_witness :
    shows_fund_warning negativeFundP.additional_fund = true ∧
    (projected_total_assets negativeFundP ≠ 0 →
      (rebalance negativeFundP).isSome) :=
  negative_fund_still_allocates negativeFundP
    (by norm_num [negativeFundP, defaultP])

/-- C6: the tolerance threshold is 5.0 for target ratios up to 20 and
10.0 above, including at the boundary: threshold(20) = 5, threshold(21)
= 10. -/
theorem threshold_pct_policy (t : ℚ) :
    (t ≤ 20 → threshold_pct t = 5) ∧ (20 < t → threshold_pct t = 10) ∧
    threshold_pct 20 = 5 ∧ threshold_pct 21 = 10 := by
  refine ⟨fun h => if_pos h, fun h => if_neg (not_le.mpr h), ?_, ?_⟩ <;>
    norm_num [threshold_pct]

/-- Witness for C6 at both sides of the boundary. -/
theorem threshold_pct_policy_witness :
    threshold_pct 20 = 5 ∧ threshold_pct 21 = 10 :=
  ⟨(threshold_pct_policy 20).1 (by norm_num),
   (threshold_pct_policy 21).2.1 (by norm_num)⟩

/-- C7 counterexample: the claim maps every present value below 15 to
Calm, but the guard `if current_vix:` of line 308 is a truthiness test,
so the present value 0 (which is below 15) takes the fetch-failure
branch and is classified `unavailable`, not `calm`. -/
theorem classify_sentiment_zero_not_calm :
    (0:ℚ) < 15 ∧ classify_sentiment (some 0) = Sentiment.unavailable ∧
    classify_sentiment (some 0) ≠ Sentiment.calm := by
  refine ⟨by norm_num, by norm_num [classify_sentiment], ?_⟩
  norm_num [classify_sentiment]
  exact fun h => Sentiment.noConfusion h

/-- C7 amended: for every present nonzero value the fixed-priority
mapping holds (> 30 panic, > 20 caution, < 15 calm, otherwise neutral),
with the stated concrete cases 35, 25, 10, 18; an absent input yields
the distinct `unavailable` state; a present value of exactly 0 is the
one exception, classified `unavailable` (see the counterexample). -/
theorem classify_sentiment_mapping (v : ℚ) (hv : v ≠ 0) :
    ((30 < v → classify_sentiment (some v) = Sentiment.panic) ∧
     (20 < v → v ≤ 30 → classify_sentiment (some v) = Sentiment.caution) ∧
     (v < 15 → classify_sentiment (some v) = Sentiment.calm) ∧
     (15 ≤ v → v ≤ 20 → classify_sentiment (some v) = Sentiment.neutral)) ∧
    (classify_sentiment (some 35) = Sentiment.panic ∧
     classify_sentiment (some 25) = Sentiment.caution ∧
     classify_sentiment (some 10) = Sentiment.calm ∧
     classify_sentiment (some 18) = Sentiment.neutral ∧
     classify_sentiment none = Sentiment.unavailable ∧
     Sentiment.unavailable ≠ Sentiment.neutral) := by
  refine ⟨⟨fun h => ?_, fun h1 h2 => ?_, fun h => ?_, fun h1 h2 => ?_⟩, ?_⟩
  · simp [classify_sentiment, hv, h]
  · simp [classify_sentiment, hv, h1, not_lt.mpr h2]
  · have h1 : ¬ (30:ℚ) < v := by linarith
    have h2 : ¬ (20:ℚ) < v := by linarith
    simp [classify_sentiment, hv, h, h1, h2]
  · have h3 : ¬ (30:ℚ) < v := by linarith
    simp [classify_sentiment, hv, not_lt.mpr h1, not_lt.mpr h2, h3]
  · refine ⟨?_, ?_, ?_, ?_, rfl, fun h => Sentiment.noConfusion h⟩ <;>
      norm_num [classify_sentiment]

/-- Witness for the amended C7 at the value 35. -/
theorem classify_sentiment_mapping_witness :
    classify_sentiment (some 35) = Sentiment.panic :=
  (classify_sentiment_mapping 35 (by norm_num)).1.1 (by norm_num)

/-- C8: per-asset unrealized profit is current minus principal and its
rate divides by the principal only when positive (else 0, no fault); the
aggregate sums currents and principals first and applies the same
formula; since `principal_cash = current_cash` (line 69), cash
contributes exactly 0 to the total profit while its value still enters
both aggregate sums. -/
theorem profit_formulas (c b : ℚ) (p : Portfolio) :
    (profit c b = c - b) ∧
    (0 < b → profit_rate c b = (c - b) / b * 100) ∧
    (b ≤ 0 → profit_rate c b = 0) ∧
    (total_profit p = total_current p - total_principal p) ∧
    (total_profit_rate p = profit_rate (total_current p) (total_principal p)) ∧
    (total_profit p = profit p.current_orkan p.principal_orkan
        + profit p.current_gold p.principal_gold) ∧
    (total_current p = p.current_orkan + p.current_gold + p.current_cash) ∧
    (total_principal p = p.principal_orkan + p.principal_gold
        + p.current_cash) := by
  refine ⟨rfl, fun h => by simp [profit_rate, profit, h],
    fun h => by simp [profit_rate, not_lt.mpr h], rfl, ?_, ?_, rfl, rfl⟩
  · simp [total_profit_rate, profit_rate, profit, total_profit]
  · simp only [total_profit, total_current, total_principal,
      Portfolio.principal_cash, profit]
    ring

/-- Witness for C8 at the default equity figures (650 current, 500
principal). -/
theorem profit_formulas_witness :
    profit 650 500 = 150 ∧
    profit_rate 650 500 = (650 - 500) / 500 * 100 ∧
    profit_rate 650 0 = 0 :=
  ⟨by norm_num [(profit_formulas 650 500 defaultP).1],
   (profit_formulas 650 500 defaultP).2.1 (by norm_num),
   (profit_formulas 650 0 defaultP).2.2.1 (by norm_num)⟩

/-- C9: the allocation output of a run — the per-asset amounts and their
status classifications bundled in `AllocResult` — is a function of the
portfolio alone: two runs differing only in the fetched VIX value
(present or absent) produce identical allocations.  The VIX value flows
only into the sentiment and the CSV cell. -/
theorem allocation_independent_of_vix (p : Portfolio) (v1 v2 : Option ℚ) :
    (app_run p v1).allocation = (app_run p v2).allocation := rfl

/-- C10: a fetched VIX value of exactly 0 is indistinguishable from a
failed fetch: the truthiness guards of lines 308 and 266 send both to
the fetch-failure branch, for the sentiment display and for the CSV
report alike. -/
theorem vix_zero_conflated_with_absent :
    classify_sentiment (some 0) = Sentiment.unavailable ∧
    classify_sentiment (some 0) = classify_sentiment none ∧
    vix_csv_cell (some 0) = VixCell.fetchFailed ∧
    vix_csv_cell (some 0) = vix_csv_cell none := by
  norm_num [classify_sentiment, vix_csv_cell]

end Rebalance
